import Mathlib

/-!
Verification of the Resolution Pipeline of the financial-agent repository:
the LLM comment classifier (`resolution_handler/llm_classifier.py`), the
resolution action dispatcher and pattern identifier
(`resolution_handler/resolution_actions.py`), and the orchestration loop
(`main.py`, `handle_resolution`).

The Python code is shallowly embedded: pure string manipulation is modelled
by Lean functions on `String`/`List Char`; the external completion service,
the embedding model and the k-means clusterer are modelled as oracle
parameters; side effects (file writes, uploads, progress-indicator calls,
error logs) are reified as an explicit effect list.
-/

namespace PyStr

/-- Whitespace characters stripped by Python's `str.strip()` (ASCII part:
space, tab, newline, carriage return, vertical tab, form feed). -/
def pyIsSpace (c : Char) : Bool :=
  c = ' ' || c = '\t' || c = '\n' || c = '\r' || c = '\x0b' || c = '\x0c'

/-- `str.strip()` on the character list: drop leading and trailing whitespace. -/
def stripData (l : List Char) : List Char :=
  ((l.dropWhile pyIsSpace).reverse.dropWhile pyIsSpace).reverse

/-- Python `str.strip()`. -/
def strip (s : String) : String := ⟨stripData s.data⟩

/-- Python `str.capitalize()`: first character uppercased, the rest lowercased. -/
def capitalize (s : String) : String :=
  match s.data with
  | [] => ""
  | c :: cs => ⟨c.toUpper :: cs.map Char.toLower⟩

/-- Python `str.lower()` on the character list (ASCII case mapping, which is
all the two-label grammar exercises). -/
def lowerData (l : List Char) : List Char := l.map Char.toLower

/-- Case-insensitive string equality, the semantics of `re.IGNORECASE`
matching against a literal word: the two strings agree after lowercasing.
This formalises "`Resolved` or `Unresolved` in any casing". -/
def ciEq (s t : String) : Prop := lowerData s.data = lowerData t.data

instance (s t : String) : Decidable (ciEq s t) := by
  unfold ciEq; infer_instance

/-- `os.path.join(a, b)` (POSIX, two components): `b` absolute wins; empty or
slash-terminated `a` concatenates directly; otherwise a `/` is inserted.
`b.startswith("/")` is the first character being `/`; `a.endswith("/")` is
the last character being `/`. -/
def osPathJoin (a b : String) : String :=
  if b.data.head? = some '/' then b
  else if a = "" then b
  else if a.data.getLast? = some '/' then a ++ b
  else a ++ "/" ++ b

/-- On an ASCII letter range check, lowering then uppering is the same as
uppering: `toLower` moves `A`-`Z` into `a`-`z` where `toUpper` undoes it, and
fixes everything else. -/
theorem toUpper_toLower (c : Char) : c.toLower.toUpper = c.toUpper := by
  have hvalid : ∀ n : Nat, n < 0xd800 → (Char.ofNat n).toNat = n := by
    intro n hn
    have hv : n.isValidChar := Or.inl hn
    simp only [Char.ofNat, hv, dite_true, Char.ofNatAux, Char.toNat]
    rfl
  unfold Char.toLower Char.toUpper
  by_cases h : c.toNat ≥ 65 ∧ c.toNat ≤ 90
  · rw [if_pos h]
    have h32 : (Char.ofNat (c.toNat + 32)).toNat = c.toNat + 32 :=
      hvalid _ (by omega)
    rw [if_pos (by omega), if_neg (by omega), h32]
    have : c.toNat + 32 - 32 = c.toNat := by omega
    rw [this, Char.ofNat_toNat]
  · rw [if_neg h]

/-- The head of `dropWhile p l`, when it exists, fails `p`. -/
theorem head?_dropWhile_not (p : Char → Bool) (l : List Char) :
    ∀ c, (l.dropWhile p).head? = some c → p c = false := by
  induction l with
  | nil => intro c h; simp [List.dropWhile] at h
  | cons a l ih =>
    intro c h
    by_cases hp : p a
    · rw [List.dropWhile_cons_of_pos hp] at h; exact ih c h
    · rw [List.dropWhile_cons_of_neg hp] at h
      simp at h
      rw [← h]
      exact Bool.not_eq_true _ ▸ hp

/-- A stripped string has no trailing whitespace. -/
theorem stripData_getLast?_not_space (l : List Char) :
    ∀ c, (stripData l).getLast? = some c → pyIsSpace c = false := by
  intro c h
  unfold stripData at h
  rw [List.getLast?_reverse] at h
  exact head?_dropWhile_not _ _ c h

end PyStr

namespace LLMClassifier

/-!
Embedding of `LLMClassifier.classify_comment`
(`resolution_handler/llm_classifier.py`, lines 42-74).

The external completion service is an oracle mapping the attempt number to
the outcome of that attempt's `chat.completions.create` call: either a raw
response string, or one of the exception classes the code distinguishes
(`RateLimitError`; `APIConnectionError`/`APIError`, handled jointly; any
other exception).
-/

/-- Outcome of one external completion call. -/
inductive CallResult where
  | ok (response : String)
  | rateLimitError
  | apiError
  | otherError
deriving DecidableEq

/-- The two-label grammar `^(Resolved|Unresolved)$` with `re.IGNORECASE`
(line 56): the whole string matches one of the two words case-insensitively;
`$` also accepts a position just before one trailing newline. -/
def isTwoLabel (s : String) : Prop :=
  PyStr.lowerData s.data = "resolved".data ∨
  PyStr.lowerData s.data = "unresolved".data ∨
  (s.data.getLast? = some '\n' ∧
    (PyStr.lowerData s.data.dropLast = "resolved".data ∨
     PyStr.lowerData s.data.dropLast = "unresolved".data))

instance (s : String) : Decidable (isTwoLabel s) := by
  unfold isTwoLabel; infer_instance

/-- Lines 53-59: strip the raw completion, validate it against the two-label
regex, and return the canonicalised (`str.capitalize`) label; an invalid
response produces nothing (the loop logs and continues). -/
def validateResponse (raw : String) : Option String :=
  let classification := PyStr.strip raw
  if isTwoLabel classification then some (PyStr.capitalize classification)
  else none

/-- Observable outcome of one `classify_comment` run: the returned value,
the number of external calls made, and the number of `time.sleep
(retry_delay)` waits performed. -/
structure RunStats where
  result : Option String
  calls : ℕ
  sleeps : ℕ
deriving DecidableEq

/-- Add a call count and a sleep count to the statistics of the rest of the
run. -/
def bump (r : RunStats) (c s : ℕ) : RunStats :=
  ⟨r.result, r.calls + c, r.sleeps + s⟩

/-- The `for attempt in range(max_retries)` loop, lines 47-72. `fuel` is the
number of loop iterations still available (`max_retries - attempt`); when it
runs out the function falls through to the final `return None` (line 74).
Branches:
* a response that passes the two-label grammar is returned at once;
* an invalid response is logged and retried with no sleep (lines 58-59);
* `RateLimitError` and `APIConnectionError`/`APIError` sleep `retry_delay`
  and retry (lines 61-66);
* any other exception sleeps and retries on a non-final attempt
  (`attempt < max_retries - 1`), and returns `None` at once on the final
  attempt (lines 67-72). -/
def classifyLoop (oracle : ℕ → CallResult) (max_retries : ℕ) :
    ℕ → ℕ → RunStats
  | _attempt, 0 => ⟨none, 0, 0⟩
  | attempt, fuel + 1 =>
    match oracle attempt with
    | CallResult.ok response =>
      match validateResponse response with
      | some label => ⟨some label, 1, 0⟩
      | none => bump (classifyLoop oracle max_retries (attempt + 1) fuel) 1 0
    | CallResult.rateLimitError =>
      bump (classifyLoop oracle max_retries (attempt + 1) fuel) 1 1
    | CallResult.apiError =>
      bump (classifyLoop oracle max_retries (attempt + 1) fuel) 1 1
    | CallResult.otherError =>
      if attempt < max_retries - 1 then
        bump (classifyLoop oracle max_retries (attempt + 1) fuel) 1 1
      else
        ⟨none, 1, 0⟩

/-- `classify_comment(order_id, comment, max_retries, retry_delay)`: run the
retry loop from attempt 0 with `max_retries` iterations available. The
prompt is built from `order_id` and `comment` but the control flow depends
only on the oracle's responses, so they are absorbed into the oracle. -/
def classify_comment (oracle : ℕ → CallResult) (max_retries : ℕ) : RunStats :=
  classifyLoop oracle max_retries 0 max_retries

end LLMClassifier

namespace LLMClassifier

/-- A string that lowercases to `resolved` capitalizes to `Resolved`. -/
theorem capitalize_resolved (s : String)
    (h : PyStr.lowerData s.data = "resolved".data) :
    PyStr.capitalize s = "Resolved" := by
  unfold PyStr.lowerData at h
  cases hs : s.data with
  | nil => rw [hs] at h; simp at h
  | cons c cs =>
    rw [hs] at h
    rw [show ("resolved".data : List Char) = 'r' :: "esolved".data from rfl] at h
    simp only [List.map_cons, List.cons.injEq] at h
    obtain ⟨hc, hcs⟩ := h
    have hup : c.toUpper = 'R' := by
      rw [← PyStr.toUpper_toLower c, hc]; decide
    unfold PyStr.capitalize
    rw [hs]
    show ({ data := c.toUpper :: List.map Char.toLower cs } : String) = "Resolved"
    rw [hcs, hup]

/-- A string that lowercases to `unresolved` capitalizes to `Unresolved`. -/
theorem capitalize_unresolved (s : String)
    (h : PyStr.lowerData s.data = "unresolved".data) :
    PyStr.capitalize s = "Unresolved" := by
  unfold PyStr.lowerData at h
  cases hs : s.data with
  | nil => rw [hs] at h; simp at h
  | cons c cs =>
    rw [hs] at h
    rw [show ("unresolved".data : List Char) = 'u' :: "nresolved".data from rfl] at h
    simp only [List.map_cons, List.cons.injEq] at h
    obtain ⟨hc, hcs⟩ := h
    have hup : c.toUpper = 'U' := by
      rw [← PyStr.toUpper_toLower c, hc]; decide
    unfold PyStr.capitalize
    rw [hs]
    show ({ data := c.toUpper :: List.map Char.toLower cs } : String) = "Unresolved"
    rw [hcs, hup]

end LLMClassifier

namespace LLMClassifier

/-- A response whose stripped form is `Resolved` in any casing validates to
the canonical label. -/
theorem validateResponse_of_resolved (raw : String)
    (h : PyStr.ciEq (PyStr.strip raw) "Resolved") :
    validateResponse raw = some "Resolved" := by
  have h1 : PyStr.lowerData (PyStr.strip raw).data = "resolved".data := by
    unfold PyStr.ciEq at h; rw [h]; decide
  show (if isTwoLabel (PyStr.strip raw) then
      some (PyStr.capitalize (PyStr.strip raw)) else none) = some "Resolved"
  rw [if_pos (show isTwoLabel (PyStr.strip raw) from Or.inl h1)]
  rw [capitalize_resolved _ h1]

/-- A response whose stripped form is `Unresolved` in any casing validates
to the canonical label. -/
theorem validateResponse_of_unresolved (raw : String)
    (h : PyStr.ciEq (PyStr.strip raw) "Unresolved") :
    validateResponse raw = some "Unresolved" := by
  have h1 : PyStr.lowerData (PyStr.strip raw).data = "unresolved".data := by
    unfold PyStr.ciEq at h; rw [h]; decide
  show (if isTwoLabel (PyStr.strip raw) then
      some (PyStr.capitalize (PyStr.strip raw)) else none) = some "Unresolved"
  rw [if_pos (show isTwoLabel (PyStr.strip raw) from Or.inr (Or.inl h1))]
  rw [capitalize_unresolved _ h1]

/-- A response whose stripped form matches neither label in any casing fails
the grammar; nothing is returned for it. The regex's trailing-newline
allowance cannot fire because the input was stripped first. -/
theorem validateResponse_none (raw : String)
    (h1 : ¬ PyStr.ciEq (PyStr.strip raw) "Resolved")
    (h2 : ¬ PyStr.ciEq (PyStr.strip raw) "Unresolved") :
    validateResponse raw = none := by
  have hnl : ¬ isTwoLabel (PyStr.strip raw) := by
    intro h
    unfold isTwoLabel at h
    rcases h with h | h | ⟨hlast, _⟩
    · exact h1 (by unfold PyStr.ciEq; rw [h]; decide)
    · exact h2 (by unfold PyStr.ciEq; rw [h]; decide)
    · have := PyStr.stripData_getLast?_not_space raw.data '\n' hlast
      simp [PyStr.pyIsSpace] at this
  show (if isTwoLabel (PyStr.strip raw) then
      some (PyStr.capitalize (PyStr.strip raw)) else none) = none
  rw [if_neg hnl]

/-- Whatever validates successfully is one of the two canonical labels. -/
theorem validateResponse_range (raw label : String)
    (h : validateResponse raw = some label) :
    label = "Resolved" ∨ label = "Unresolved" := by
  by_cases hr : PyStr.ciEq (PyStr.strip raw) "Resolved"
  · left
    rw [validateResponse_of_resolved raw hr] at h
    exact (Option.some_inj.mp h).symm
  · by_cases hu : PyStr.ciEq (PyStr.strip raw) "Unresolved"
    · right
      rw [validateResponse_of_unresolved raw hu] at h
      exact (Option.some_inj.mp h).symm
    · rw [validateResponse_none raw hr hu] at h
      simp at h

/-- The retry loop only ever produces a canonical label or nothing. -/
theorem classifyLoop_result_range (oracle : ℕ → CallResult) (mr : ℕ) :
    ∀ fuel attempt,
      (classifyLoop oracle mr attempt fuel).result = some "Resolved" ∨
      (classifyLoop oracle mr attempt fuel).result = some "Unresolved" ∨
      (classifyLoop oracle mr attempt fuel).result = none := by
  intro fuel
  induction fuel with
  | zero => intro attempt; right; right; rfl
  | succ k ih =>
    intro attempt
    cases hor : oracle attempt with
    | ok response =>
      cases hv : validateResponse response with
      | some label =>
        have heq : classifyLoop oracle mr attempt (k + 1) = ⟨some label, 1, 0⟩ := by
          simp [classifyLoop, hor, hv]
        rw [heq]
        rcases validateResponse_range response label hv with h | h
        · left; simp [h]
        · right; left; simp [h]
      | none =>
        have heq : classifyLoop oracle mr attempt (k + 1) =
            bump (classifyLoop oracle mr (attempt + 1) k) 1 0 := by
          simp [classifyLoop, hor, hv]
        rw [heq]
        simpa [bump] using ih (attempt + 1)
    | rateLimitError =>
      have heq : classifyLoop oracle mr attempt (k + 1) =
          bump (classifyLoop oracle mr (attempt + 1) k) 1 1 := by
        simp [classifyLoop, hor]
      rw [heq]
      simpa [bump] using ih (attempt + 1)
    | apiError =>
      have heq : classifyLoop oracle mr attempt (k + 1) =
          bump (classifyLoop oracle mr (attempt + 1) k) 1 1 := by
        simp [classifyLoop, hor]
      rw [heq]
      simpa [bump] using ih (attempt + 1)
    | otherError =>
      by_cases hfin : attempt < mr - 1
      · have heq : classifyLoop oracle mr attempt (k + 1) =
            bump (classifyLoop oracle mr (attempt + 1) k) 1 1 := by
          simp [classifyLoop, hor, hfin]
        rw [heq]
        simpa [bump] using ih (attempt + 1)
      · have heq : classifyLoop oracle mr attempt (k + 1) = ⟨none, 1, 0⟩ := by
          simp [classifyLoop, hor, hfin]
        rw [heq]
        right; right; rfl

end LLMClassifier

namespace LLMClassifier

/-- C1: if the completion service's response, once stripped of surrounding
whitespace, is exactly `Resolved` or `Unresolved` in any casing,
`classify_comment` returns the canonical capitalized label at that call
(one external call, no sleep); a response matching neither word
case-insensitively fails the grammar and its content is never returned. -/
theorem classify_two_label_grammar (oracle : ℕ → CallResult) (mr : ℕ)
    (hmr : 0 < mr) (raw : String) (h0 : oracle 0 = CallResult.ok raw) :
    (PyStr.ciEq (PyStr.strip raw) "Resolved" →
      classify_comment oracle mr = ⟨some "Resolved", 1, 0⟩) ∧
    (PyStr.ciEq (PyStr.strip raw) "Unresolved" →
      classify_comment oracle mr = ⟨some "Unresolved", 1, 0⟩) ∧
    (¬ PyStr.ciEq (PyStr.strip raw) "Resolved" →
      ¬ PyStr.ciEq (PyStr.strip raw) "Unresolved" →
      validateResponse raw = none) := by
  obtain ⟨k, rfl⟩ : ∃ k, mr = k + 1 := ⟨mr - 1, by omega⟩
  refine ⟨fun hr => ?_, fun hu => ?_, fun hnr hnu => ?_⟩
  · have hv := validateResponse_of_resolved raw hr
    simp [classify_comment, classifyLoop, h0, hv]
  · have hv := validateResponse_of_unresolved raw hu
    simp [classify_comment, classifyLoop, h0, hv]
  · exact validateResponse_none raw hnr hnu

/-- Witness for C1 at concrete inputs: a stripped all-caps `RESOLVED`
response is canonicalised, and a response with surrounding text fails the
grammar. -/
theorem classify_two_label_grammar_witness :
    classify_comment (fun _ => CallResult.ok " RESOLVED ") 3 =
      ⟨some "Resolved", 1, 0⟩ ∧
    validateResponse "The issue is Resolved" = none := by
  constructor
  · exact (classify_two_label_grammar (fun _ => CallResult.ok " RESOLVED ") 3
      (by decide) " RESOLVED " rfl).1 (by decide)
  · exact (classify_two_label_grammar
      (fun _ => CallResult.ok "The issue is Resolved") 3 (by decide)
      "The issue is Resolved" rfl).2.2 (by decide) (by decide)

/-- C10: whatever the completion service does across any number of attempts,
`classify_comment` returns `Resolved`, `Unresolved`, or nothing — never any
other string, in particular never the raw model output. -/
theorem classify_comment_result_range (oracle : ℕ → CallResult)
    (max_retries : ℕ) :
    (classify_comment oracle max_retries).result = some "Resolved" ∨
    (classify_comment oracle max_retries).result = some "Unresolved" ∨
    (classify_comment oracle max_retries).result = none :=
  classifyLoop_result_range oracle max_retries max_retries 0

/-- If every remaining attempt yields a grammar-failing response, the loop
exhausts all its iterations, makes one call per iteration, never sleeps,
and produces nothing. -/
theorem classifyLoop_all_invalid (oracle : ℕ → CallResult) (mr : ℕ) :
    ∀ fuel attempt,
      (∀ i, attempt ≤ i → i < attempt + fuel →
        ∃ raw, oracle i = CallResult.ok raw ∧ validateResponse raw = none) →
      classifyLoop oracle mr attempt fuel = ⟨none, fuel, 0⟩ := by
  intro fuel
  induction fuel with
  | zero => intro attempt _; rfl
  | succ k ih =>
    intro attempt h
    obtain ⟨raw, hok, hval⟩ := h attempt (Nat.le_refl _) (by omega)
    have hrest : classifyLoop oracle mr (attempt + 1) k = ⟨none, k, 0⟩ :=
      ih (attempt + 1) (fun i h1 h2 => h i (by omega) (by omega))
    simp [classifyLoop, hok, hval, hrest, bump]

/-- C2 (amended): when every external call returns a response failing the
two-label grammar, `classify_comment` logs and retries each one
*immediately* — no retry-delay sleep occurs between attempts — finally
returns nothing, and the number of external calls equals `max_retries`. -/
theorem classify_comment_all_invalid (oracle : ℕ → CallResult)
    (max_retries : ℕ)
    (h : ∀ i, i < max_retries →
      ∃ raw, oracle i = CallResult.ok raw ∧ validateResponse raw = none) :
    classify_comment oracle max_retries = ⟨none, max_retries, 0⟩ :=
  classifyLoop_all_invalid oracle max_retries max_retries 0
    (fun i _ h2 => h i (by omega))

/-- Witness for the amended C2 at a concrete all-invalid run with the
default attempt ceiling 3. -/
theorem classify_comment_all_invalid_witness :
    classify_comment (fun _ => CallResult.ok "perhaps") 3 = ⟨none, 3, 0⟩ :=
  classify_comment_all_invalid (fun _ => CallResult.ok "perhaps") 3
    (fun i _ => ⟨"perhaps", rfl, by decide⟩)

/-- Counterexample to C2 as stated: with the default ceiling of 3 and every
response invalid, the code performs zero retry-delay sleeps, not the one
sleep per gap between consecutive attempts (2 in total) that treating an
invalid response like a transient failure would produce. -/
theorem classify_comment_invalid_no_sleep_cex :
    classify_comment (fun _ => CallResult.ok "Maybe") 3 = ⟨none, 3, 0⟩ ∧
    ¬ (classify_comment (fun _ => CallResult.ok "Maybe") 3).sleeps = 2 := by
  constructor
  · decide
  · decide

/-- C6: when the external call raises an exception that is neither
rate-limit nor connectivity/server error, the final attempt returns nothing
immediately with no sleep, while every non-final attempt sleeps the fixed
delay once and continues with the next attempt. -/
theorem classify_comment_unexpected_error (oracle : ℕ → CallResult)
    (mr attempt fuel : ℕ) (hsum : attempt + fuel = mr) (hfuel : 0 < fuel)
    (herr : oracle attempt = CallResult.otherError) :
    (attempt = mr - 1 →
      classifyLoop oracle mr attempt fuel = ⟨none, 1, 0⟩) ∧
    (attempt < mr - 1 →
      classifyLoop oracle mr attempt fuel =
        bump (classifyLoop oracle mr (attempt + 1) (fuel - 1)) 1 1) := by
  obtain ⟨k, rfl⟩ : ∃ k, fuel = k + 1 := ⟨fuel - 1, by omega⟩
  constructor
  · intro hfin
    have : ¬ attempt < mr - 1 := by omega
    simp [classifyLoop, herr, this]
  · intro hlt
    simp [classifyLoop, herr, hlt]

/-- Witness for C6: with both attempts raising an unexpected exception and
`max_retries = 2`, the final attempt (index 1) gives up at once, and the
non-final attempt (index 0) sleeps once and retries. -/
theorem classify_comment_unexpected_error_witness :
    classifyLoop (fun _ => CallResult.otherError) 2 1 1 = ⟨none, 1, 0⟩ ∧
    classifyLoop (fun _ => CallResult.otherError) 2 0 2 =
      bump (classifyLoop (fun _ => CallResult.otherError) 2 1 1) 1 1 := by
  constructor
  · exact (classify_comment_unexpected_error (fun _ => CallResult.otherError)
      2 1 1 (by decide) (by decide) rfl).1 (by decide)
  · exact (classify_comment_unexpected_error (fun _ => CallResult.otherError)
      2 0 2 (by decide) (by decide) rfl).2 (by decide)

end LLMClassifier

namespace PyStr

/-- Substring containment (Python's `in` on strings), used to state which
literal fragments an artifact's content contains. -/
def containsSub (s t : String) : Prop :=
  ∃ a b : List Char, s.data = a ++ t.data ++ b

/-- `os.path.join` inserts exactly one separator in the common case: second
component not absolute, first component non-empty and not slash-terminated. -/
theorem osPathJoin_eq (a b : String) (hb : ¬ b.data.head? = some '/')
    (ha1 : ¬ a = "") (ha2 : ¬ a.data.getLast? = some '/') :
    osPathJoin a b = a ++ "/" ++ b := by
  unfold osPathJoin
  rw [if_neg hb, if_neg ha1, if_neg ha2]

end PyStr

namespace ResolutionActions

/-!
Embedding of `ResolutionActions.handle_resolution` and
`generate_unresolved_summary` (`resolution_handler/resolution_actions.py`,
lines 39-81). The side effects — local scratch-file write, progress calls,
object-store upload, error log — are reified in order as an effect list.
-/

/-- One observable side effect of the dispatcher or the orchestrator. -/
inductive Effect where
  | write (path content : String)
  | progress (fraction : ℚ) (desc : String)
  | upload (localPath remotePath : String)
  | logError (msg : String)
deriving DecidableEq

/-- Python string interpolation of the classification argument, which is
either a string or `None` (`f"... {classification} ..."`). -/
def showClassification : Option String → String
  | none => "None"
  | some s => s

/-- Lines 68-81: the fixed summary text for unresolved cases. -/
def generate_unresolved_summary (order_id comment : String) : String :=
  "Order ID: " ++ order_id ++ "\nComment: " ++ comment ++
    "\nStatus: Unresolved\nNext Steps: Manual review required."

/-- Lines 39-66: the two-branch dispatch keyed on the classification.
`Resolved` writes `{order_id}_resolved.txt` locally and uploads it into the
resolved folder; `Unresolved` writes the summary to
`{order_id}_unresolved.txt` and uploads it into the unresolved folder; any
other value only logs an error naming the value and the order id. -/
def handle_resolution (order_id : String) (classification : Option String)
    (comment resolved_folder unresolved_folder local_temp_dir : String) :
    List Effect :=
  if classification = some "Resolved" then
    let file_name := order_id ++ "_resolved.txt"
    let local_file_path := PyStr.osPathJoin local_temp_dir file_name
    let s3_file_path := PyStr.osPathJoin resolved_folder file_name
    [Effect.write local_file_path
      ("Order ID: " ++ order_id ++ "\nComment: " ++ comment ++
        "\nStatus: Resolved"),
     Effect.progress (1/2) "Starting Upload",
     Effect.upload local_file_path s3_file_path,
     Effect.progress 1 "Finishing Upload"]
  else if classification = some "Unresolved" then
    let file_name := order_id ++ "_unresolved.txt"
    let local_file_path := PyStr.osPathJoin local_temp_dir file_name
    let s3_file_path := PyStr.osPathJoin unresolved_folder file_name
    [Effect.write local_file_path (generate_unresolved_summary order_id comment),
     Effect.progress (1/2) "Starting Upload",
     Effect.upload local_file_path s3_file_path,
     Effect.progress 1 "Finishing Upload"]
  else
    [Effect.logError ("Invalid classification: " ++
      showClassification classification ++ " for order " ++ order_id)]

end ResolutionActions

namespace ResolutionActions

/-- C4: dispatching `Resolved` writes a scratch file
`{order_id}_resolved.txt` whose content contains `Order ID: {order_id}`,
`Comment: {comment}` and `Status: Resolved`, then uploads it to
`resolved_folder/{order_id}_resolved.txt`; dispatching `Unresolved`
additionally includes `Next Steps: Manual review required.` in the artifact,
writes `{order_id}_unresolved.txt` and uploads it to
`unresolved_folder/{order_id}_unresolved.txt`. -/
theorem handle_resolution_artifacts
    (order_id comment resolved_folder unresolved_folder local_temp_dir : String)
    (h1 : ¬ (order_id ++ "_resolved.txt").data.head? = some '/')
    (h2 : ¬ (order_id ++ "_unresolved.txt").data.head? = some '/')
    (h3 : ¬ resolved_folder = "")
    (h4 : ¬ resolved_folder.data.getLast? = some '/')
    (h5 : ¬ unresolved_folder = "")
    (h6 : ¬ unresolved_folder.data.getLast? = some '/') :
    (handle_resolution order_id (some "Resolved") comment resolved_folder
        unresolved_folder local_temp_dir =
      [Effect.write (PyStr.osPathJoin local_temp_dir (order_id ++ "_resolved.txt"))
         ("Order ID: " ++ order_id ++ "\nComment: " ++ comment ++
           "\nStatus: Resolved"),
       Effect.progress (1/2) "Starting Upload",
       Effect.upload (PyStr.osPathJoin local_temp_dir (order_id ++ "_resolved.txt"))
         (resolved_folder ++ "/" ++ (order_id ++ "_resolved.txt")),
       Effect.progress 1 "Finishing Upload"] ∧
     PyStr.containsSub
       ("Order ID: " ++ order_id ++ "\nComment: " ++ comment ++ "\nStatus: Resolved")
       ("Order ID: " ++ order_id) ∧
     PyStr.containsSub
       ("Order ID: " ++ order_id ++ "\nComment: " ++ comment ++ "\nStatus: Resolved")
       ("Comment: " ++ comment) ∧
     PyStr.containsSub
       ("Order ID: " ++ order_id ++ "\nComment: " ++ comment ++ "\nStatus: Resolved")
       "Status: Resolved") ∧
    (handle_resolution order_id (some "Unresolved") comment resolved_folder
        unresolved_folder local_temp_dir =
      [Effect.write (PyStr.osPathJoin local_temp_dir (order_id ++ "_unresolved.txt"))
         (generate_unresolved_summary order_id comment),
       Effect.progress (1/2) "Starting Upload",
       Effect.upload (PyStr.osPathJoin local_temp_dir (order_id ++ "_unresolved.txt"))
         (unresolved_folder ++ "/" ++ (order_id ++ "_unresolved.txt")),
       Effect.progress 1 "Finishing Upload"] ∧
     PyStr.containsSub (generate_unresolved_summary order_id comment)
       ("Order ID: " ++ order_id) ∧
     PyStr.containsSub (generate_unresolved_summary order_id comment)
       ("Comment: " ++ comment) ∧
     PyStr.containsSub (generate_unresolved_summary order_id comment)
       "Status: Unresolved" ∧
     PyStr.containsSub (generate_unresolved_summary order_id comment)
       "Next Steps: Manual review required.") := by
  constructor
  · refine ⟨?_, ?_, ?_, ?_⟩
    · have e1 : PyStr.osPathJoin resolved_folder (order_id ++ "_resolved.txt") =
          resolved_folder ++ "/" ++ (order_id ++ "_resolved.txt") :=
        PyStr.osPathJoin_eq _ _ h1 h3 h4
      simp [handle_resolution, e1]
    · exact ⟨[], ("\nComment: " ++ comment ++ "\nStatus: Resolved").data, by simp⟩
    · refine ⟨("Order ID: " ++ order_id).data ++ ['\n'], "\nStatus: Resolved".data, ?_⟩
      have hsplit : ("\nComment: " : String).data = '\n' :: "Comment: ".data := rfl
      simp [hsplit, List.append_assoc]
    · refine ⟨("Order ID: " ++ order_id ++ "\nComment: " ++ comment).data ++ ['\n'],
        [], ?_⟩
      have hsplit : ("\nStatus: Resolved" : String).data =
        '\n' :: "Status: Resolved".data := rfl
      simp [hsplit, List.append_assoc]
  · refine ⟨?_, ?_, ?_, ?_, ?_⟩
    · have e1 : PyStr.osPathJoin unresolved_folder (order_id ++ "_unresolved.txt") =
          unresolved_folder ++ "/" ++ (order_id ++ "_unresolved.txt") :=
        PyStr.osPathJoin_eq _ _ h2 h5 h6
      simp [handle_resolution, e1]
    · exact ⟨[], ("\nComment: " ++ comment ++
        "\nStatus: Unresolved\nNext Steps: Manual review required.").data,
        by simp [generate_unresolved_summary]⟩
    · refine ⟨("Order ID: " ++ order_id).data ++ ['\n'],
        "\nStatus: Unresolved\nNext Steps: Manual review required.".data, ?_⟩
      have hsplit : ("\nComment: " : String).data = '\n' :: "Comment: ".data := rfl
      simp [generate_unresolved_summary, hsplit, List.append_assoc]
    · refine ⟨("Order ID: " ++ order_id ++ "\nComment: " ++ comment).data ++ ['\n'],
        "\nNext Steps: Manual review required.".data, ?_⟩
      have hsplit : ("\nStatus: Unresolved\nNext Steps: Manual review required." :
          String).data = ('\n' :: "Status: Unresolved".data) ++
          ("\nNext Steps: Manual review required." : String).data := rfl
      simp [generate_unresolved_summary, hsplit, List.append_assoc]
    · refine ⟨("Order ID: " ++ order_id ++ "\nComment: " ++ comment ++
        "\nStatus: Unresolved").data ++ ['\n'], [], ?_⟩
      have hsplit : ("\nStatus: Unresolved\nNext Steps: Manual review required." :
          String).data = ("\nStatus: Unresolved" : String).data ++
          ('\n' :: "Next Steps: Manual review required.".data) := rfl
      simp [generate_unresolved_summary, hsplit, List.append_assoc]

end ResolutionActions

namespace ResolutionActions

/-- Witness for C4 at the spec's concrete example: order `order123`, comment
`Issue fixed.`, outcome `Resolved`. -/
theorem handle_resolution_artifacts_witness :
    handle_resolution "order123" (some "Resolved") "Issue fixed."
        "resolved_folder" "unresolved_folder" "local_tmp" =
      [Effect.write (PyStr.osPathJoin "local_tmp" ("order123" ++ "_resolved.txt"))
         ("Order ID: " ++ "order123" ++ "\nComment: " ++ "Issue fixed." ++
           "\nStatus: Resolved"),
       Effect.progress (1/2) "Starting Upload",
       Effect.upload (PyStr.osPathJoin "local_tmp" ("order123" ++ "_resolved.txt"))
         ("resolved_folder" ++ "/" ++ ("order123" ++ "_resolved.txt")),
       Effect.progress 1 "Finishing Upload"] :=
  (handle_resolution_artifacts "order123" "Issue fixed." "resolved_folder"
    "unresolved_folder" "local_tmp" (by decide) (by decide) (by decide)
    (by decide) (by decide) (by decide)).1.1

/-- C5: any classification other than `Resolved` and `Unresolved` (including
`None`) produces exactly one error-log effect naming the invalid value and
the order id; no file write and no upload occur, and the dispatcher returns
normally (it is a total function into an effect list). -/
theorem handle_resolution_invalid (order_id : String)
    (classification : Option String)
    (comment resolved_folder unresolved_folder local_temp_dir : String)
    (hr : ¬ classification = some "Resolved")
    (hu : ¬ classification = some "Unresolved") :
    handle_resolution order_id classification comment resolved_folder
        unresolved_folder local_temp_dir =
      [Effect.logError ("Invalid classification: " ++
        showClassification classification ++ " for order " ++ order_id)] ∧
    (∀ p c, Effect.write p c ∉ handle_resolution order_id classification
      comment resolved_folder unresolved_folder local_temp_dir) ∧
    (∀ p q, Effect.upload p q ∉ handle_resolution order_id classification
      comment resolved_folder unresolved_folder local_temp_dir) ∧
    PyStr.containsSub ("Invalid classification: " ++
        showClassification classification ++ " for order " ++ order_id)
      (showClassification classification) ∧
    PyStr.containsSub ("Invalid classification: " ++
        showClassification classification ++ " for order " ++ order_id)
      order_id := by
  have heq : handle_resolution order_id classification comment resolved_folder
      unresolved_folder local_temp_dir =
      [Effect.logError ("Invalid classification: " ++
        showClassification classification ++ " for order " ++ order_id)] := by
    unfold handle_resolution
    rw [if_neg hr, if_neg hu]
  refine ⟨heq, ?_, ?_, ?_, ?_⟩
  · intro p c; rw [heq]; simp
  · intro p q; rw [heq]; simp
  · exact ⟨"Invalid classification: ".data, (" for order " ++ order_id).data,
      by simp⟩
  · exact ⟨("Invalid classification: " ++ showClassification classification ++
      " for order ").data, [], by simp⟩

/-- Witness for C5 with the Absent (`None`) classification. -/
theorem handle_resolution_invalid_witness :
    handle_resolution "order789" none "Some comment." "res" "unres" "tmp" =
      [Effect.logError ("Invalid classification: " ++ showClassification none ++
        " for order " ++ "order789")] :=
  (handle_resolution_invalid "order789" none "Some comment." "res" "unres"
    "tmp" (by decide) (by decide)).1

end ResolutionActions

namespace ResolutionActions

/-!
Embedding of `ResolutionActions.identify_patterns`
(`resolution_handler/resolution_actions.py`, lines 84-116). Rows are an
arbitrary type `α` with a comment accessor (a missing comment is `none`);
the sentence-embedding model (`self.model.encode`) and the k-means
clusterer (`KMeans(...).fit_predict`) are external collaborators passed as
oracle functions. The run records how many times each oracle was invoked.
-/

/-- `df.dropna(subset=['comment'])`: keep the rows whose comment is present,
in order. -/
def dropna {α : Type} (getComment : α → Option String) (df : List α) :
    List α :=
  df.filter (fun r => (getComment r).isSome)

/-- Result of one `identify_patterns` call: the returned rows (each original
row paired with its integer cluster assignment) and the number of calls made
to the embedding model and to the clusterer. -/
structure PatternsRun (α : Type) where
  rows : List (α × ℕ)
  encodeCalls : ℕ
  kmeansCalls : ℕ
deriving DecidableEq

/-- Lines 95-116: return empty at once on an empty table; drop rows with
missing comments and return empty at once if nothing remains; otherwise
embed the comment texts, cluster the embeddings into `n_clusters` groups,
and attach the assignments positionally to the kept rows. -/
def identify_patterns {α E : Type} (getComment : α → Option String)
    (encode : List String → List E) (fit_predict : ℕ → List E → List ℕ)
    (resolved_comments_df : List α) (n_clusters : ℕ) : PatternsRun α :=
  if resolved_comments_df.isEmpty then ⟨[], 0, 0⟩
  else
    let kept := dropna getComment resolved_comments_df
    if kept.isEmpty then ⟨[], 0, 0⟩
    else
      let comments := kept.filterMap getComment
      let embeddings := encode comments
      let clusters := fit_predict n_clusters embeddings
      ⟨kept.zip clusters, 1, 1⟩

/-- C7: on an empty input table, or when dropping the rows with missing
comment text leaves no rows, `identify_patterns` returns an empty result and
invokes neither the embedding model nor the clustering algorithm. -/
theorem identify_patterns_empty {α E : Type} (getComment : α → Option String)
    (encode : List String → List E) (fit_predict : ℕ → List E → List ℕ)
    (df : List α) (n_clusters : ℕ)
    (h : df = [] ∨ dropna getComment df = []) :
    identify_patterns getComment encode fit_predict df n_clusters =
      ⟨[], 0, 0⟩ := by
  rcases h with h | h
  · subst h; rfl
  · unfold identify_patterns
    by_cases hd : df.isEmpty
    · rw [if_pos hd]
    · rw [if_neg hd, if_pos (by simp [h])]

/-- Witness for C7: one row whose comment is missing empties the table after
the drop; no oracle call is made. -/
theorem identify_patterns_empty_witness :
    identify_patterns (Prod.snd : String × Option String → Option String)
      (fun l => l.map String.length) (fun k es => es.map (fun e => e % k))
      [("o1", (none : Option String))] 3 = ⟨[], 0, 0⟩ :=
  identify_patterns_empty _ _ _ _ 3 (Or.inr (by decide))

/-- C8: on a non-empty table with at least one present comment and
`1 ≤ n_clusters ≤ #kept rows`, assuming the clusterer returns one assignment
per embedded row with values below `n_clusters` (the k-means contract), the
output consists of exactly the kept rows — original order, whole original
row preserved — each paired with a cluster assignment in
`[0, n_clusters)`. -/
theorem identify_patterns_clusters {α E : Type}
    (getComment : α → Option String) (encode : List String → List E)
    (fit_predict : ℕ → List E → List ℕ) (df : List α) (n_clusters : ℕ)
    (hne : ¬ dropna getComment df = [])
    (hlen : (fit_predict n_clusters (encode
        ((dropna getComment df).filterMap getComment))).length =
      (dropna getComment df).length)
    (hrange : ∀ c ∈ fit_predict n_clusters (encode
        ((dropna getComment df).filterMap getComment)), c < n_clusters)
    (hk1 : 1 ≤ n_clusters) (hk2 : n_clusters ≤ (dropna getComment df).length) :
    (identify_patterns getComment encode fit_predict df n_clusters).rows.map
        Prod.fst = dropna getComment df ∧
    (identify_patterns getComment encode fit_predict df n_clusters).rows.length
      = (dropna getComment df).length ∧
    ∀ p ∈ (identify_patterns getComment encode fit_predict df n_clusters).rows,
      p.2 < n_clusters := by
  have hdf : ¬ df.isEmpty := by
    intro hd
    rw [List.isEmpty_iff] at hd
    subst hd
    exact hne rfl
  have heq : identify_patterns getComment encode fit_predict df n_clusters =
      ⟨(dropna getComment df).zip (fit_predict n_clusters (encode
        ((dropna getComment df).filterMap getComment))), 1, 1⟩ := by
    unfold identify_patterns
    rw [if_neg hdf, if_neg (by simpa [List.isEmpty_iff] using hne)]
  rw [heq]
  refine ⟨List.map_fst_zip _ _ (by omega), ?_, ?_⟩
  · rw [List.length_zip, hlen, Nat.min_self]
  · intro p hp
    exact hrange p.2 (List.of_mem_zip hp).2

/-- Witness for C8: three rows, one missing comment, two clusters; the
clusterer oracle assigns each embedding its length parity. -/
theorem identify_patterns_clusters_witness :
    (identify_patterns (Prod.snd : String × Option String → Option String)
        (fun l => l.map String.length) (fun k es => es.map (fun e => e % k))
        [("a", some "short"), ("b", none), ("c", some "long")] 2).rows.map
        Prod.fst =
      dropna Prod.snd [("a", some "short"), ("b", none), ("c", some "long")] ∧
    (identify_patterns (Prod.snd : String × Option String → Option String)
        (fun l => l.map String.length) (fun k es => es.map (fun e => e % k))
        [("a", some "short"), ("b", none), ("c", some "long")] 2).rows.length =
      (dropna Prod.snd
        [("a", some "short"), ("b", none), ("c", some "long")]).length ∧
    ∀ p ∈ (identify_patterns (Prod.snd : String × Option String → Option String)
        (fun l => l.map String.length) (fun k es => es.map (fun e => e % k))
        [("a", some "short"), ("b", none), ("c", some "long")] 2).rows,
      p.2 < 2 :=
  identify_patterns_clusters _ _ _ _ 2 (by decide) (by decide) (by decide)
    (by decide) (by decide)

end ResolutionActions

namespace Orchestrator

open ResolutionActions (Effect)

/-!
Embedding of the orchestration loop in `main.py`, `handle_resolution`
(lines 131-168). Comment Records are `(Transaction ID, Comments)` pairs;
the classifier is an oracle from record fields to the classification
outcome. The loop reports `index / total_comments` to the shared progress
indicator before processing each record, classifies, and on a truthy
classification dispatches (whose effects include the dispatcher's own
progress calls) and appends a result row; pattern identification and the
scratch purge after the loop issue no progress calls and no rows, and the
run is bracketed by `progress(0, "Starting Resolution")` and
`progress(1, "Finishing Resolution")`.
-/

/-- One row of the accumulated result table:
`{'order_id': ..., 'comment': ..., 'status': ...}`. -/
structure ResultRow where
  order_id : String
  comment : String
  status : String
deriving DecidableEq

/-- The `for index, row in comments_df.iterrows()` loop. `index` is the
positional index of the record (the ingested table carries a 0-based range
index); `total` is `total_comments`. A record is dispatched and accumulated
only when its classification is truthy (`if classification:`): not `None`
and not the empty string. -/
def loop (classify : String → String → Option String)
    (resolved_folder unresolved_folder local_temp_dir : String) (total : ℕ) :
    ℕ → List (String × String) → List ResultRow × List Effect
  | _index, [] => ([], [])
  | index, (order_id, comment) :: rest =>
    let pre := Effect.progress ((index : ℚ) / (total : ℚ))
      ("Processing Resolution: " ++ toString (index + 1) ++ " / " ++
        toString total)
    let step : List ResultRow × List Effect :=
      match classify order_id comment with
      | some c =>
        if c = "" then ([], [])
        else ([⟨order_id, comment, c⟩],
          ResolutionActions.handle_resolution order_id (some c) comment
            resolved_folder unresolved_folder local_temp_dir)
      | none => ([], [])
    let restRun := loop classify resolved_folder unresolved_folder
      local_temp_dir total (index + 1) rest
    (step.1 ++ restRun.1, pre :: (step.2 ++ restRun.2))

/-- The whole `handle_resolution` coroutine: initial progress report, the
per-record loop from index 0, final progress report. Returns the
accumulated result table and the effect trace. -/
def handle_resolution (classify : String → String → Option String)
    (resolved_folder unresolved_folder local_temp_dir : String)
    (comments_df : List (String × String)) :
    List ResultRow × List Effect :=
  let total := comments_df.length
  let run := loop classify resolved_folder unresolved_folder local_temp_dir
    total 0 comments_df
  (run.1,
   Effect.progress 0 "Starting Resolution" ::
     (run.2 ++ [Effect.progress 1 "Finishing Resolution"]))

/-- The durable-artifact effects of a trace: scratch-file writes and
uploads. -/
def artifacts (trace : List Effect) : List Effect :=
  trace.filter (fun e =>
    match e with
    | Effect.write _ _ => true
    | Effect.upload _ _ => true
    | _ => false)

/-- All completion fractions reported to the shared progress indicator, in
order. -/
def progressFracs (trace : List Effect) : List ℚ :=
  trace.filterMap (fun e =>
    match e with
    | Effect.progress q _ => some q
    | _ => none)

/-- The completion fractions reported by the orchestrator loop itself
(descriptions starting with `Processing Resolution:`), in order. -/
def processingFracs (trace : List Effect) : List ℚ :=
  trace.filterMap (fun e =>
    match e with
    | Effect.progress q d =>
        if d.data.take 22 = "Processing Resolution:".data then some q
        else none
    | _ => none)

end Orchestrator

namespace Orchestrator

open ResolutionActions (Effect)

theorem artifacts_cons_progress (q : ℚ) (d : String) (t : List Effect) :
    artifacts (Effect.progress q d :: t) = artifacts t := by
  simp [artifacts]

theorem artifacts_append (t1 t2 : List Effect) :
    artifacts (t1 ++ t2) = artifacts t1 ++ artifacts t2 := by
  simp [artifacts]

/-- Rows and artifact effects produced by the loop from any starting
index: one row per truthy classification in processing order, and exactly
the dispatch artifacts of the truthy records. -/
theorem loop_rows_artifacts (classify : String → String → Option String)
    (rf uf tmp : String) (total : ℕ)
    (hcl : ∀ oid cm s, classify oid cm = some s → ¬ s = "") :
    ∀ (records : List (String × String)) (index : ℕ),
      (loop classify rf uf tmp total index records).1 =
        records.filterMap (fun r => (classify r.1 r.2).map
          (fun c => ⟨r.1, r.2, c⟩)) ∧
      artifacts (loop classify rf uf tmp total index records).2 =
        (records.map (fun r =>
          match classify r.1 r.2 with
          | some c => artifacts (ResolutionActions.handle_resolution r.1
              (some c) r.2 rf uf tmp)
          | none => [])).flatten := by
  intro records
  induction records with
  | nil => intro index; exact ⟨rfl, rfl⟩
  | cons r rest ih =>
    intro index
    obtain ⟨oid, cm⟩ := r
    obtain ⟨ih1, ih2⟩ := ih (index + 1)
    cases hc : classify oid cm with
    | none =>
      constructor
      · simp [loop, hc, ih1]
      · simp only [loop, hc, List.map_cons]
        rw [artifacts_cons_progress]
        simp [ih2]
    | some c =>
      have hne : ¬ c = "" := hcl oid cm c hc
      constructor
      · simp [loop, hc, hne, ih1]
      · simp only [loop, hc, List.map_cons, if_neg hne]
        rw [artifacts_cons_progress, artifacts_append]
        simp [ih2]

/-- C3: over any record sequence, assuming the classifier never returns the
empty string (its range is the two canonical labels or Absent), the result
table has exactly one `{order_id, comment, status}` row per record whose
outcome is not Absent, in processing order, and the trace's durable
artifacts (writes and uploads) are exactly those dispatched for the
non-Absent records — an Absent record contributes no row and no artifact. -/
theorem handle_resolution_rows (classify : String → String → Option String)
    (rf uf tmp : String) (records : List (String × String))
    (hcl : ∀ oid cm s, classify oid cm = some s → ¬ s = "") :
    (handle_resolution classify rf uf tmp records).1 =
      records.filterMap (fun r => (classify r.1 r.2).map
        (fun c => ⟨r.1, r.2, c⟩)) ∧
    artifacts (handle_resolution classify rf uf tmp records).2 =
      (records.map (fun r =>
        match classify r.1 r.2 with
        | some c => artifacts (ResolutionActions.handle_resolution r.1
            (some c) r.2 rf uf tmp)
        | none => [])).flatten := by
  obtain ⟨h1, h2⟩ := loop_rows_artifacts classify rf uf tmp records.length
    hcl records 0
  constructor
  · exact h1
  · show artifacts (Effect.progress 0 "Starting Resolution" ::
      ((loop classify rf uf tmp records.length 0 records).2 ++
        [Effect.progress 1 "Finishing Resolution"])) = _
    rw [artifacts_cons_progress, artifacts_append, h2]
    simp [artifacts]

/-- Witness for C3: two records, the second classifying to Absent; only the
first yields a row and artifacts. -/
theorem handle_resolution_rows_witness :
    (handle_resolution
        (fun oid _ => if oid = "a" then some "Resolved" else none)
        "rf" "uf" "tmp" [("a", "x"), ("b", "y")]).1 =
      [("a", "x"), ("b", "y")].filterMap (fun r =>
        ((fun oid _ => if oid = "a" then some "Resolved" else none)
            r.1 r.2).map (fun c => ⟨r.1, r.2, c⟩)) ∧
    artifacts (handle_resolution
        (fun oid _ => if oid = "a" then some "Resolved" else none)
        "rf" "uf" "tmp" [("a", "x"), ("b", "y")]).2 =
      ([("a", "x"), ("b", "y")].map (fun r =>
        match (fun oid _ => if oid = "a" then some "Resolved" else none)
            r.1 r.2 with
        | some c => artifacts (ResolutionActions.handle_resolution r.1
            (some c) r.2 "rf" "uf" "tmp")
        | none => [])).flatten :=
  handle_resolution_rows
    (fun oid _ => if oid = "a" then some "Resolved" else none)
    "rf" "uf" "tmp" [("a", "x"), ("b", "y")]
    (fun oid cm s h => by
      dsimp only at h
      by_cases ha : oid = "a"
      · rw [if_pos ha] at h
        have hs : s = "Resolved" := (Option.some_inj.mp h).symm
        subst hs
        decide
      · rw [if_neg ha] at h
        exact absurd h (by simp))

end Orchestrator

namespace Orchestrator

open ResolutionActions (Effect)

/-- Taking 22 characters from a string beginning with the loop's
`Processing Resolution: ` prefix yields the discriminating prefix. -/
theorem take22_of_processing (r : List Char) :
    (("Processing Resolution: ".data : List Char) ++ r).take 22 =
      "Processing Resolution:".data := by
  rw [List.take_append_of_le_length (by decide)]
  decide

theorem processingFracs_cons_processing (q : ℚ) (d : String)
    (t : List Effect) (hd : d.data.take 22 = "Processing Resolution:".data) :
    processingFracs (Effect.progress q d :: t) = q :: processingFracs t := by
  simp [processingFracs, hd]

theorem processingFracs_cons_other (q : ℚ) (d : String) (t : List Effect)
    (hd : ¬ d.data.take 22 = "Processing Resolution:".data) :
    processingFracs (Effect.progress q d :: t) = processingFracs t := by
  simp [processingFracs, hd]

theorem processingFracs_append (t1 t2 : List Effect) :
    processingFracs (t1 ++ t2) = processingFracs t1 ++ processingFracs t2 := by
  simp [processingFracs]

/-- The dispatcher's own progress reports (`Starting Upload`,
`Finishing Upload`) never carry the loop's discriminating description. -/
theorem processingFracs_dispatch (oid : String) (cl : Option String)
    (cm rf uf tmp : String) :
    processingFracs (ResolutionActions.handle_resolution oid cl cm rf uf tmp)
      = [] := by
  unfold ResolutionActions.handle_resolution
  by_cases h1 : cl = some "Resolved"
  · rw [if_pos h1]
    simp [processingFracs]
  · rw [if_neg h1]
    by_cases h2 : cl = some "Unresolved"
    · rw [if_pos h2]
      simp [processingFracs]
    · rw [if_neg h2]
      simp [processingFracs]

/-- Splitting off the head of a fraction ladder. -/
theorem range_map_frac (n index : ℕ) (total : ℕ) :
    ((index : ℚ) / (total : ℚ)) ::
      (List.range n).map (fun k => ((index + 1 + k : ℕ) : ℚ) / (total : ℚ)) =
    (List.range (n + 1)).map (fun k => ((index + k : ℕ) : ℚ) / (total : ℚ)) := by
  rw [List.range_succ_eq_map, List.map_cons, List.map_map]
  congr 1
  apply List.map_congr_left
  intro a _
  simp only [Function.comp_apply]
  push_cast
  ring

/-- The loop reports exactly one fraction `index / total` per record, in
processing order. -/
theorem loop_processingFracs (classify : String → String → Option String)
    (rf uf tmp : String) (total : ℕ) :
    ∀ (records : List (String × String)) (index : ℕ),
      processingFracs (loop classify rf uf tmp total index records).2 =
        (List.range records.length).map
          (fun k => ((index + k : ℕ) : ℚ) / (total : ℚ)) := by
  intro records
  induction records with
  | nil => intro index; rfl
  | cons r rest ih =>
    intro index
    obtain ⟨oid, cm⟩ := r
    have hdesc : (("Processing Resolution: " ++ toString (index + 1) ++
        " / " ++ toString total) : String).data.take 22 =
        "Processing Resolution:".data := by
      simp only [String.data_append, List.append_assoc]
      exact take22_of_processing _
    cases hc : classify oid cm with
    | none =>
      simp only [loop, hc]
      rw [processingFracs_cons_processing _ _ _ hdesc]
      simp only [List.nil_append, List.length_cons]
      rw [ih (index + 1), range_map_frac]
    | some c =>
      by_cases he : c = ""
      · simp only [loop, hc, if_pos he]
        rw [processingFracs_cons_processing _ _ _ hdesc]
        simp only [List.nil_append, List.length_cons]
        rw [ih (index + 1), range_map_frac]
      · simp only [loop, hc, if_neg he]
        rw [processingFracs_cons_processing _ _ _ hdesc,
          processingFracs_append, processingFracs_dispatch]
        simp only [List.nil_append, List.length_cons]
        rw [ih (index + 1), range_map_frac]

/-- The fraction ladder `0/n, 1/n, …, (n-1)/n` is strictly increasing. -/
theorem pairwise_range_div (n : ℕ) :
    List.Pairwise (· < ·)
      ((List.range n).map (fun i : ℕ => (i : ℚ) / (n : ℚ))) := by
  cases n with
  | zero => simp
  | succ m =>
    have hpos : (0 : ℚ) < ((m + 1 : ℕ) : ℚ) := by
      exact_mod_cast Nat.succ_pos m
    have step : ∀ a b : ℕ, a < b →
        (a : ℚ) / ((m + 1 : ℕ) : ℚ) < (b : ℚ) / ((m + 1 : ℕ) : ℚ) := by
      intro a b hab
      rw [div_lt_div_iff_of_pos_right hpos]
      exact_mod_cast hab
    exact List.Pairwise.map (fun i : ℕ => (i : ℚ) / ((m + 1 : ℕ) : ℚ)) step
      (List.pairwise_lt_range (m + 1))

/-- C9 (amended): the orchestrator loop itself reports `index / total` to
the progress indicator exactly once per record, in processing order, and
this per-record sequence `0/n, …, (n-1)/n` is monotonically (strictly)
increasing; the dispatcher's upload progress reports (0.5 and 1) to the same
indicator are excluded here — with them the combined reported sequence is
not monotone (see the counterexample). -/
theorem handle_resolution_progress (classify : String → String → Option String)
    (rf uf tmp : String) (records : List (String × String)) :
    processingFracs (handle_resolution classify rf uf tmp records).2 =
      (List.range records.length).map
        (fun i : ℕ => (i : ℚ) / (records.length : ℚ)) ∧
    List.Pairwise (· < ·)
      (processingFracs (handle_resolution classify rf uf tmp records).2) ∧
    (processingFracs (handle_resolution classify rf uf tmp records).2).length
      = records.length := by
  have h2 : processingFracs [Effect.progress 1 "Finishing Resolution"] = [] := by
    rw [show ([Effect.progress 1 "Finishing Resolution"] : List Effect) =
      Effect.progress 1 "Finishing Resolution" :: [] from rfl]
    rw [processingFracs_cons_other _ _ _ (by decide)]
    rfl
  have h1 : processingFracs (handle_resolution classify rf uf tmp records).2 =
      (List.range records.length).map
        (fun i : ℕ => (i : ℚ) / (records.length : ℚ)) := by
    show processingFracs (Effect.progress 0 "Starting Resolution" ::
      ((loop classify rf uf tmp records.length 0 records).2 ++
        [Effect.progress 1 "Finishing Resolution"])) = _
    rw [processingFracs_cons_other _ _ _ (by decide), processingFracs_append,
      loop_processingFracs classify rf uf tmp records.length records 0,
      h2, List.append_nil]
    simp
  refine ⟨h1, ?_, ?_⟩
  · rw [h1]
    exact pairwise_range_div records.length
  · rw [h1]
    simp

/-- A fraction sequence is monotonically increasing when each entry is at
most the next. -/
def isMonotone : List ℚ → Bool
  | [] => true
  | [_] => true
  | a :: b :: t => a ≤ b && isMonotone (b :: t)

/-- Counterexample to C9 as stated: with three records all classifying as
`Resolved`, the full sequence of fractions reported to the shared progress
indicator is `0, 0/3, 0.5, 1, 1/3, 0.5, 1, 2/3, 0.5, 1, 1` — the loop
reports interleaved with the dispatcher's upload reports. It is not
monotonically increasing and has 11 entries, not one per record. -/
theorem handle_resolution_progress_cex :
    progressFracs (handle_resolution (fun _ _ => some "Resolved") "rf" "uf"
        "tmp" [("a", "x"), ("b", "y"), ("c", "z")]).2 =
      [0, 0, 1/2, 1, 1/3, 1/2, 1, 2/3, 1/2, 1, 1] ∧
    isMonotone (progressFracs (handle_resolution (fun _ _ => some "Resolved")
        "rf" "uf" "tmp" [("a", "x"), ("b", "y"), ("c", "z")]).2) = false ∧
    ¬ (progressFracs (handle_resolution (fun _ _ => some "Resolved") "rf" "uf"
        "tmp" [("a", "x"), ("b", "y"), ("c", "z")]).2).length = 3 := by
  have h1 : progressFracs (handle_resolution (fun _ _ => some "Resolved")
      "rf" "uf" "tmp" [("a", "x"), ("b", "y"), ("c", "z")]).2 =
      [0, 0, 1/2, 1, 1/3, 1/2, 1, 2/3, 1/2, 1, 1] := by
    simp [handle_resolution, loop, ResolutionActions.handle_resolution,
      progressFracs]
  refine ⟨h1, ?_, ?_⟩
  · rw [h1]
    norm_num [isMonotone]
  · rw [h1]
    decide

end Orchestrator
